import Mathlib

/-!
A shallow embedding of the ACL permission engine of the repository
(backend/app/services/permission_service.py, backend/app/services/hierarchy.py,
backend/app/api/permissions.py, backend/app/api/groups.py).

Conventions of the embedding:
* instants are natural numbers; the SQL comparison `expires_at > now` becomes `now < t`;
* the grant store is the list of `resource_permissions` rows, in insertion order;
* the Redis cache is modelled as absent: every cache lookup is a miss, which is the
  code path taken when the cache is disabled or unavailable (cache_service.py makes
  every `get` return None in that case and the engine falls through to the database);
* the SQL `order_by(effect.desc())` is modelled as the deny rows of the result set,
  in store order, followed by the allow rows in store order - one of the orders the
  database may produce, and the one total behaviour of the loop depends on only
  through the deny-before-allow split;
* Python `list(set(xs))` is modelled as `xs.dedup` (same elements, duplicate free;
  the Python order is unspecified anyway).
-/

/-- GranteeType enum of app/models/permission.py. -/
inductive GranteeType where
  | USER
  | GROUP
deriving DecidableEq

/-- ResourceType enum of app/models/permission.py. -/
inductive ResourceType where
  | GROUP
  | USER
  | SITE
  | PLAN
  | SENSOR
  | BROKER
  | ALARM
  | ALERT
  | DASHBOARD
  | HARDWARE
  | DATATYPE
  | PROTOCOL
  | PARSER
  | MANUFACTURER
  | COMMUNICATION_MODE
deriving DecidableEq

/-- Permission enum of app/models/permission.py. -/
inductive Permission where
  | MEMBER
  | READ
  | WRITE
  | DELETE
  | CREATE
  | MANAGE
deriving DecidableEq

/-- Effect enum of app/models/permission.py. -/
inductive Effect where
  | ALLOW
  | DENY
deriving DecidableEq

/-- A row of the resource_permissions table (class ResourcePermission). -/
structure ResourcePermission where
  id : String
  grantee_type : GranteeType
  grantee_id : String
  resource_type : ResourceType
  resource_id : String
  permission : Permission
  effect : Effect
  inherit : Bool
  fields : Option (List String)
  expires_at : Option Nat
  granted_by : Option String
deriving DecidableEq

/-- The authenticated user, reduced to the attributes the engine reads. -/
structure User where
  id : String
  is_admin : Bool
deriving DecidableEq

/-- The business tables behind the hierarchy walk: for each hierarchical child
kind, the parent foreign key of a row, `none` when the row is missing or its
foreign key is null; plus row existence for users and groups, read by the
grantee and resource existence checks of the API layer. -/
structure Env where
  plan_site : String → Option String
  sensor_plan : String → Option String
  broker_plan : String → Option String
  alarm_sensor : String → Option String
  alert_alarm : String → Option String
  user_exists : String → Bool
  group_exists : String → Bool

/-- HIERARCHY_CONFIG of app/services/hierarchy.py: `none` for a resource type
absent from the dict, `some none` for a configured type with parent_type None,
`some (some p)` for a configured type with parent_type p. The catalog kinds
(hardware, datatype, protocol, parser, manufacturer, communication_mode) are
not keys of the dict. -/
def HIERARCHY_CONFIG : ResourceType → Option (Option ResourceType)
  | ResourceType.ALERT => some (some ResourceType.ALARM)
  | ResourceType.ALARM => some (some ResourceType.SENSOR)
  | ResourceType.SENSOR => some (some ResourceType.PLAN)
  | ResourceType.BROKER => some (some ResourceType.PLAN)
  | ResourceType.PLAN => some (some ResourceType.SITE)
  | ResourceType.SITE => some none
  | ResourceType.GROUP => some none
  | ResourceType.USER => some none
  | ResourceType.DASHBOARD => some none
  | _ => none

/-- The parent-id read of one iteration of the get_ancestors loop: query the
model class of the current type by id and read its parent foreign key. -/
def parent_fk_lookup (env : Env) : ResourceType → String → Option String
  | ResourceType.ALERT, i => env.alert_alarm i
  | ResourceType.ALARM, i => env.alarm_sensor i
  | ResourceType.SENSOR, i => env.sensor_plan i
  | ResourceType.BROKER, i => env.broker_plan i
  | ResourceType.PLAN, i => env.plan_site i
  | _, _ => none

/-- The while loop of get_ancestors, producing the entries of depth >= 1.
The fuel bounds the iteration count; the static parent chain of
HIERARCHY_CONFIG has length at most four (alert, alarm, sensor, plan, site),
so fuel 8 is never exhausted. An empty-string foreign key is falsy in the
source and stops the walk like a missing one. -/
def ancestors_loop (env : Env) : Nat → ResourceType → String → Nat →
    List (ResourceType × String × Nat)
  | 0, _, _, _ => []
  | fuel + 1, t, i, depth =>
    match HIERARCHY_CONFIG t with
    | none => []
    | some none => []
    | some (some pt) =>
      match parent_fk_lookup env t i with
      | none => []
      | some pid =>
        if pid = "" then []
        else (pt, pid, depth) :: ancestors_loop env fuel pt pid (depth + 1)

/-- get_ancestors of app/services/hierarchy.py. Unknown resource types (the
catalog kinds) yield []; configured types with no parent yield only the input
at depth 0; hierarchical types walk the parent foreign keys. -/
def get_ancestors (env : Env) (resource_type : ResourceType) (resource_id : String) :
    List (ResourceType × String × Nat) :=
  match HIERARCHY_CONFIG resource_type with
  | none => []
  | some none => [(resource_type, resource_id, 0)]
  | some (some _) => (resource_type, resource_id, 0) :: ancestors_loop env 8 resource_type resource_id 1

/-- PERMISSION_HIERARCHY of app/services/permission_service.py. -/
def PERMISSION_HIERARCHY : Permission → Option (List Permission)
  | Permission.READ => some [Permission.READ, Permission.WRITE, Permission.DELETE,
      Permission.CREATE, Permission.MANAGE]
  | Permission.WRITE => some [Permission.WRITE, Permission.MANAGE]
  | Permission.DELETE => some [Permission.DELETE, Permission.MANAGE]
  | Permission.CREATE => some [Permission.CREATE, Permission.MANAGE]
  | Permission.MANAGE => some [Permission.MANAGE]
  | Permission.MEMBER => none

/-- expand_permission: `PERMISSION_HIERARCHY.get(permission, [permission])`. -/
def expand_permission (permission : Permission) : List Permission :=
  (PERMISSION_HIERARCHY permission).getD [permission]

/-- The liveness filter every decision query applies:
`expires_at IS NULL OR expires_at > now`. -/
def live_at (now : Nat) (g : ResourcePermission) : Bool :=
  match g.expires_at with
  | none => true
  | some t => decide (now < t)

/-- get_user_groups of app/services/permission_service.py (cache miss path):
resource ids of live allow member grants of the user on groups. -/
def get_user_groups (now : Nat) (store : List ResourcePermission) (user_id : String) :
    List String :=
  (store.filter (fun g =>
    decide (g.grantee_type = GranteeType.USER) && decide (g.grantee_id = user_id)
    && decide (g.resource_type = ResourceType.GROUP)
    && decide (g.permission = Permission.MEMBER)
    && decide (g.effect = Effect.ALLOW)
    && live_at now g)).map (fun g => g.resource_id)

/-- The grantee disjunction of the decision query: the user directly, or any
of the groups the user belongs to. -/
def grantee_matches (user_id : String) (group_ids : List String) (g : ResourcePermission) :
    Bool :=
  (decide (g.grantee_type = GranteeType.USER) && decide (g.grantee_id = user_id))
  || (decide (g.grantee_type = GranteeType.GROUP)
      && group_ids.any (fun gid => decide (gid = g.grantee_id)))

/-- The resource disjunction of the decision query: the grant sits on the
resource itself or on one of its ancestors. -/
def resource_matches (ancestors : List (ResourceType × String × Nat))
    (g : ResourcePermission) : Bool :=
  ancestors.any (fun a => decide (a.1 = g.resource_type) && decide (a.2.1 = g.resource_id))

/-- The single SELECT of PermissionService.check (step 6): grantee in the
grantee set, resource among the ancestors, permission in the expanded set,
not expired. -/
def check_query (now : Nat) (store : List ResourcePermission) (user_id : String)
    (group_ids : List String) (ancestors : List (ResourceType × String × Nat))
    (perms_to_check : List Permission) : List ResourcePermission :=
  store.filter (fun g =>
    grantee_matches user_id group_ids g
    && resource_matches ancestors g
    && perms_to_check.any (fun p => decide (p = g.permission))
    && live_at now g)

/-- `order_by(effect.desc())`: DENY rows before ALLOW rows. -/
def order_deny_first (l : List ResourcePermission) : List ResourcePermission :=
  l.filter (fun g => decide (g.effect = Effect.DENY))
  ++ l.filter (fun g => decide (g.effect = Effect.ALLOW))

/-- The depth lookup of the resolution loop:
`next((d for rt, ri, d in ancestors if ...), None)`. -/
def depth_of (ancestors : List (ResourceType × String × Nat)) (g : ResourcePermission) :
    Option Nat :=
  (ancestors.find? (fun a =>
    decide (a.1 = g.resource_type) && decide (a.2.1 = g.resource_id))).map (fun a => a.2.2)

/-- Step 7 of PermissionService.check: the for loop over the ordered rows.
`Except.error` is an early return of the Python loop, `Except.ok` carries the
accumulated allowed_fields when the loop runs to completion. -/
def resolve_loop (ancestors : List (ResourceType × String × Nat)) :
    List ResourcePermission → List String →
    Except (Bool × Option (List String)) (List String)
  | [], acc => Except.ok acc
  | g :: rest, acc =>
    match depth_of ancestors g with
    | none => resolve_loop ancestors rest acc
    | some d =>
      if d > 0 ∧ g.inherit = false then resolve_loop ancestors rest acc
      else
        match g.effect with
        | Effect.DENY => Except.error (false, none)
        | Effect.ALLOW =>
          match g.fields with
          | none => Except.error (true, none)
          | some fs => resolve_loop ancestors rest (acc ++ fs)

/-- RESOURCE_DEFAULTS of app/services/permission_service.py, as the lookup
`RESOURCE_DEFAULTS[resource_type].get(permission)` performs it. -/
inductive DefaultPolicy where
  | any_user
  | admin_only
deriving DecidableEq

/-- The per-kind rows of RESOURCE_DEFAULTS: read allowed to any authenticated
user, mutations admin only, nothing for manage or member. -/
def catalog_default : Permission → Option DefaultPolicy
  | Permission.READ => some DefaultPolicy.any_user
  | Permission.WRITE => some DefaultPolicy.admin_only
  | Permission.DELETE => some DefaultPolicy.admin_only
  | Permission.CREATE => some DefaultPolicy.admin_only
  | _ => none

/-- The default-permission table: only the six catalog kinds have entries. -/
def RESOURCE_DEFAULTS : ResourceType → Permission → Option DefaultPolicy
  | ResourceType.HARDWARE, p => catalog_default p
  | ResourceType.DATATYPE, p => catalog_default p
  | ResourceType.PROTOCOL, p => catalog_default p
  | ResourceType.PARSER, p => catalog_default p
  | ResourceType.MANUFACTURER, p => catalog_default p
  | ResourceType.COMMUNICATION_MODE, p => catalog_default p
  | _, _ => none

/-- Steps 8 and 9 of PermissionService.check: a True default allows, an
admin_only default falls through (the admin bypass already ran), and the last
resort is the default deny. -/
def default_decision (resource_type : ResourceType) (permission : Permission) :
    Bool × Option (List String) :=
  match RESOURCE_DEFAULTS resource_type permission with
  | some DefaultPolicy.any_user => (true, none)
  | some DefaultPolicy.admin_only => (false, none)
  | none => (false, none)

namespace PermissionService

/-- PermissionService.check of app/services/permission_service.py, over a
store snapshot, with the cache on its miss path. -/
def check (env : Env) (now : Nat) (store : List ResourcePermission) (user : User)
    (resource_type : ResourceType) (resource_id : String) (permission : Permission) :
    Bool × Option (List String) :=
  if user.is_admin then (true, none)
  else
    match resolve_loop (get_ancestors env resource_type resource_id)
        (order_deny_first (check_query now store user.id
          (get_user_groups now store user.id)
          (get_ancestors env resource_type resource_id)
          (expand_permission permission))) [] with
    | Except.error r => r
    | Except.ok allowed_fields =>
      if allowed_fields.isEmpty then default_decision resource_type permission
      else (true, some allowed_fields.dedup)

/-- PermissionService.grant: build the row and add it to the store. The id is
the uuid the database default generates, supplied here as an argument. -/
def grant (store : List ResourcePermission) (new_id : String)
    (grantee_type : GranteeType) (grantee_id : String)
    (resource_type : ResourceType) (resource_id : String) (permission : Permission)
    (effect : Effect) (inherit : Bool) (fields : Option (List String))
    (expires_at : Option Nat) (granted_by : Option String) :
    List ResourcePermission × ResourcePermission :=
  let perm : ResourcePermission :=
    { id := new_id
      grantee_type := grantee_type
      grantee_id := grantee_id
      resource_type := resource_type
      resource_id := resource_id
      permission := permission
      effect := effect
      inherit := inherit
      fields := fields
      expires_at := expires_at
      granted_by := granted_by }
  (store ++ [perm], perm)

/-- PermissionService.list_for_resource: every row on the exact resource.
The SELECT has no expires_at condition. -/
def list_for_resource (resource_type : ResourceType) (resource_id : String)
    (store : List ResourcePermission) : List ResourcePermission :=
  store.filter (fun g =>
    decide (g.resource_type = resource_type) && decide (g.resource_id = resource_id))

/-- PermissionService.list_for_user: every row whose grantee is the user.
The SELECT has no expires_at condition. -/
def list_for_user (user_id : String) (store : List ResourcePermission) :
    List ResourcePermission :=
  store.filter (fun g =>
    decide (g.grantee_type = GranteeType.USER) && decide (g.grantee_id = user_id))

end PermissionService

/-- The error surface of the API layer. -/
inductive ApiError where
  | bad_request
  | not_found
  | forbidden
  | conflict
deriving DecidableEq

/-- The truthiness Python gives the value the endpoints guard on:
`has_permission` is the pair returned by check, and `not` of a tuple is False
for every tuple of positive length, so the guard value is always true. -/
def py_truthy_pair (_p : Bool × Option (List String)) : Bool := true

/-- The body of POST /permissions (grant_permission of app/api/permissions.py). -/
structure PermissionCreate where
  grantee_type : GranteeType
  grantee_id : String
  resource_type : ResourceType
  resource_id : String
  permission : Permission
  effect : Effect
  inherit : Bool
  fields : Option (List String)
  expires_at : Option Nat
deriving DecidableEq

namespace Api

/-- GET /permissions/resource/... (list_resource_permissions): guard on the
manage check, then list. The guard tests `not has_permission` where
has_permission is the (allowed, fields) pair. -/
def list_resource_permissions (env : Env) (now : Nat) (store : List ResourcePermission)
    (current_user : User) (resource_type : ResourceType) (resource_id : String) :
    Except ApiError (List ResourcePermission) :=
  if !(py_truthy_pair (PermissionService.check env now store current_user
      resource_type resource_id Permission.MANAGE)) then
    Except.error ApiError.forbidden
  else
    Except.ok (PermissionService.list_for_resource resource_type resource_id store)

/-- POST /permissions (grant_permission): guard on the manage check, verify
grantee and resource existence, then call the service. The call passes
grantee, resource, permission, effect, inherit and granted_by only; the
request fields `fields` and `expires_at` are not forwarded, so the service
defaults of None are what gets persisted. -/
def grant_permission (env : Env) (now : Nat) (store : List ResourcePermission)
    (current_user : User) (perm_create : PermissionCreate) (new_id : String) :
    Except ApiError (List ResourcePermission × ResourcePermission) :=
  if !(py_truthy_pair (PermissionService.check env now store current_user
      perm_create.resource_type perm_create.resource_id Permission.MANAGE)) then
    Except.error ApiError.forbidden
  else if perm_create.grantee_type = GranteeType.USER
      ∧ env.user_exists perm_create.grantee_id = false then
    Except.error ApiError.not_found
  else if perm_create.grantee_type = GranteeType.GROUP
      ∧ env.group_exists perm_create.grantee_id = false then
    Except.error ApiError.not_found
  else if perm_create.resource_type = ResourceType.USER
      ∧ env.user_exists perm_create.resource_id = false then
    Except.error ApiError.not_found
  else if perm_create.resource_type = ResourceType.GROUP
      ∧ env.group_exists perm_create.resource_id = false then
    Except.error ApiError.not_found
  else
    Except.ok (PermissionService.grant store new_id
      perm_create.grantee_type perm_create.grantee_id
      perm_create.resource_type perm_create.resource_id
      perm_create.permission perm_create.effect perm_create.inherit
      none none (some current_user.id))

/-- POST /groups/{group_id}/members/{user_id} (add_group_member of
app/api/groups.py): existence checks, then conflict on an existing membership
row - the existence query has no expires_at and no effect condition - then
insert the member grant with inherit false and no fields or expiry. -/
def add_group_member (env : Env) (store : List ResourcePermission)
    (current_user : User) (group_id : String) (user_id : String) (new_id : String) :
    Except ApiError (List ResourcePermission) :=
  if env.group_exists group_id = false then Except.error ApiError.not_found
  else if env.user_exists user_id = false then Except.error ApiError.not_found
  else if store.any (fun g =>
      decide (g.grantee_type = GranteeType.USER) && decide (g.grantee_id = user_id)
      && decide (g.resource_type = ResourceType.GROUP)
      && decide (g.resource_id = group_id)
      && decide (g.permission = Permission.MEMBER)) then
    Except.error ApiError.conflict
  else
    Except.ok (store ++ [{
      id := new_id
      grantee_type := GranteeType.USER
      grantee_id := user_id
      resource_type := ResourceType.GROUP
      resource_id := group_id
      permission := Permission.MEMBER
      effect := Effect.ALLOW
      inherit := false
      fields := none
      expires_at := none
      granted_by := some current_user.id }])

end Api

/-- Whether the resolution loop skips a grant: its resource is not among the
ancestors, or it sits at positive depth without inherit. -/
def skip_b (ancestors : List (ResourceType × String × Nat)) (g : ResourcePermission) :
    Bool :=
  match depth_of ancestors g with
  | none => true
  | some d => decide (d > 0) && !g.inherit

/-- A grant applicable to a decision, in the sense of the spec: it survives
the gathering query of check (grantee, ancestor resource, strength closure,
liveness) and is not gated out by the inheritance bit. -/
def applicable (env : Env) (now : Nat) (store : List ResourcePermission) (user : User)
    (resource_type : ResourceType) (resource_id : String) (permission : Permission)
    (g : ResourcePermission) : Prop :=
  g ∈ check_query now store user.id (get_user_groups now store user.id)
      (get_ancestors env resource_type resource_id) (expand_permission permission)
  ∧ skip_b (get_ancestors env resource_type resource_id) g = false

/-! Concrete instances used by the witness and counterexample theorems. -/

/-- A business environment with no rows at all. -/
def env0 : Env where
  plan_site := fun _ => none
  sensor_plan := fun _ => none
  broker_plan := fun _ => none
  alarm_sensor := fun _ => none
  alert_alarm := fun _ => none
  user_exists := fun _ => false
  group_exists := fun _ => false

/-- A small world: sensor se1 on plan p1 on site s1, users u1 and eve, group g1. -/
def envW : Env where
  plan_site := fun i => if i = "p1" then some "s1" else none
  sensor_plan := fun i => if i = "se1" then some "p1" else none
  broker_plan := fun _ => none
  alarm_sensor := fun _ => none
  alert_alarm := fun _ => none
  user_exists := fun i => decide (i = "u1" ∨ i = "eve")
  group_exists := fun i => decide (i = "g1")

/-- A plain authenticated user with no special status. -/
def eve : User where
  id := "eve"
  is_admin := false

/-- A platform superuser. -/
def rootAdmin : User where
  id := "root"
  is_admin := true

/-- A live deny grant for rootAdmin on site s1. -/
def g_deny : ResourcePermission where
  id := "gd"
  grantee_type := GranteeType.USER
  grantee_id := "root"
  resource_type := ResourceType.SITE
  resource_id := "s1"
  permission := Permission.READ
  effect := Effect.DENY
  inherit := true
  fields := none
  expires_at := none
  granted_by := none

/-- A live deny grant for eve on site s1. -/
def g_deny_eve : ResourcePermission where
  id := "gde"
  grantee_type := GranteeType.USER
  grantee_id := "eve"
  resource_type := ResourceType.SITE
  resource_id := "s1"
  permission := Permission.READ
  effect := Effect.DENY
  inherit := true
  fields := none
  expires_at := none
  granted_by := none

/-- An allow grant for u1 on site s1 that expired at instant 50. -/
def g_expired : ResourcePermission where
  id := "ge"
  grantee_type := GranteeType.USER
  grantee_id := "u1"
  resource_type := ResourceType.SITE
  resource_id := "s1"
  permission := Permission.READ
  effect := Effect.ALLOW
  inherit := true
  fields := none
  expires_at := some 50
  granted_by := none

/-- A live allow grant for eve on site s1 whose field list is empty. -/
def g_empty_fields : ResourcePermission where
  id := "gef"
  grantee_type := GranteeType.USER
  grantee_id := "eve"
  resource_type := ResourceType.SITE
  resource_id := "s1"
  permission := Permission.READ
  effect := Effect.ALLOW
  inherit := true
  fields := some []
  expires_at := none
  granted_by := none

/-- A pre-existing live read grant for u1 on site s1 (the uniqueness triple). -/
def g_dup : ResourcePermission where
  id := "g0"
  grantee_type := GranteeType.USER
  grantee_id := "u1"
  resource_type := ResourceType.SITE
  resource_id := "s1"
  permission := Permission.READ
  effect := Effect.ALLOW
  inherit := true
  fields := none
  expires_at := none
  granted_by := none

/-- A deny grant for eve on plan p1 with the inheritance bit off. -/
def g_noinherit : ResourcePermission where
  id := "g7"
  grantee_type := GranteeType.USER
  grantee_id := "eve"
  resource_type := ResourceType.PLAN
  resource_id := "p1"
  permission := Permission.READ
  effect := Effect.DENY
  inherit := false
  fields := none
  expires_at := none
  granted_by := none

/-- A live unrestricted allow grant for eve on site s1. -/
def g_allow_eve : ResourcePermission where
  id := "ga"
  grantee_type := GranteeType.USER
  grantee_id := "eve"
  resource_type := ResourceType.SITE
  resource_id := "s1"
  permission := Permission.READ
  effect := Effect.ALLOW
  inherit := true
  fields := none
  expires_at := none
  granted_by := none

/-- A live allow grant for eve on site s1 restricted to fields a and b. -/
def g_fields_ab : ResourcePermission where
  id := "gab"
  grantee_type := GranteeType.USER
  grantee_id := "eve"
  resource_type := ResourceType.SITE
  resource_id := "s1"
  permission := Permission.READ
  effect := Effect.ALLOW
  inherit := true
  fields := some ["a", "b"]
  expires_at := none
  granted_by := none

/-- A grant request carrying neither a field list nor an expiry. -/
def req_plain : PermissionCreate where
  grantee_type := GranteeType.USER
  grantee_id := "u1"
  resource_type := ResourceType.SITE
  resource_id := "s1"
  permission := Permission.READ
  effect := Effect.ALLOW
  inherit := true
  fields := none
  expires_at := none

/-- A grant request carrying a field list and an expiry. -/
def req_with_fields : PermissionCreate where
  grantee_type := GranteeType.USER
  grantee_id := "u1"
  resource_type := ResourceType.SITE
  resource_id := "s1"
  permission := Permission.READ
  effect := Effect.ALLOW
  inherit := true
  fields := some ["name"]
  expires_at := some 50

/-- The row POST /permissions persists for req_plain issued by eve under id1. -/
def g_posted_eve : ResourcePermission where
  id := "id1"
  grantee_type := GranteeType.USER
  grantee_id := "u1"
  resource_type := ResourceType.SITE
  resource_id := "s1"
  permission := Permission.READ
  effect := Effect.ALLOW
  inherit := true
  fields := none
  expires_at := none
  granted_by := some "eve"

/-- The row POST /permissions persists for req_with_fields issued by rootAdmin
under id2. -/
def g_posted_root : ResourcePermission where
  id := "id2"
  grantee_type := GranteeType.USER
  grantee_id := "u1"
  resource_type := ResourceType.SITE
  resource_id := "s1"
  permission := Permission.READ
  effect := Effect.ALLOW
  inherit := true
  fields := none
  expires_at := none
  granted_by := some "root"

/-- The row POST /permissions persists for req_plain issued by rootAdmin under
id3 - the same (grantee, resource, permission) triple as g_dup. -/
def g_posted_dup : ResourcePermission where
  id := "id3"
  grantee_type := GranteeType.USER
  grantee_id := "u1"
  resource_type := ResourceType.SITE
  resource_id := "s1"
  permission := Permission.READ
  effect := Effect.ALLOW
  inherit := true
  fields := none
  expires_at := none
  granted_by := some "root"

/-! Helper lemmas about the resolution loop. -/

theorem resolve_loop_cons_skip {anc : List (ResourceType × String × Nat)}
    {g : ResourcePermission} {l : List ResourcePermission} {acc : List String}
    (h : skip_b anc g = true) :
    resolve_loop anc (g :: l) acc = resolve_loop anc l acc := by
  unfold skip_b at h
  cases hd : depth_of anc g with
  | none => simp [resolve_loop, hd]
  | some d =>
    rw [hd] at h
    simp only [Bool.and_eq_true, decide_eq_true_eq, Bool.not_eq_true'] at h
    simp [resolve_loop, hd, h.1, h.2]

theorem skip_b_false_elim {anc : List (ResourceType × String × Nat)}
    {g : ResourcePermission} (h : skip_b anc g = false) :
    ∃ d, depth_of anc g = some d ∧ ¬(d > 0 ∧ g.inherit = false) := by
  unfold skip_b at h
  cases hd : depth_of anc g with
  | none => rw [hd] at h; cases h
  | some d =>
    rw [hd] at h
    refine ⟨d, rfl, ?_⟩
    rintro ⟨h1, h2⟩
    simp [h1, h2] at h

theorem resolve_loop_cons_deny {anc : List (ResourceType × String × Nat)}
    {g : ResourcePermission} {l : List ResourcePermission} {acc : List String}
    (h : skip_b anc g = false) (he : g.effect = Effect.DENY) :
    resolve_loop anc (g :: l) acc = Except.error (false, none) := by
  obtain ⟨d, hd, hcond⟩ := skip_b_false_elim h
  simp [resolve_loop, hd, hcond, he]

theorem resolve_loop_cons_allow_none {anc : List (ResourceType × String × Nat)}
    {g : ResourcePermission} {l : List ResourcePermission} {acc : List String}
    (h : skip_b anc g = false) (he : g.effect = Effect.ALLOW) (hf : g.fields = none) :
    resolve_loop anc (g :: l) acc = Except.error (true, none) := by
  obtain ⟨d, hd, hcond⟩ := skip_b_false_elim h
  simp [resolve_loop, hd, hcond, he, hf]

theorem resolve_loop_cons_allow_some {anc : List (ResourceType × String × Nat)}
    {g : ResourcePermission} {l : List ResourcePermission} {acc : List String}
    {fs : List String}
    (h : skip_b anc g = false) (he : g.effect = Effect.ALLOW) (hf : g.fields = some fs) :
    resolve_loop anc (g :: l) acc = resolve_loop anc l (acc ++ fs) := by
  obtain ⟨d, hd, hcond⟩ := skip_b_false_elim h
  simp [resolve_loop, hd, hcond, he, hf]

theorem resolve_loop_all_skip {anc : List (ResourceType × String × Nat)} :
    ∀ {l₁ l₂ : List ResourcePermission} {acc : List String},
    (∀ g ∈ l₁, skip_b anc g = true) →
    resolve_loop anc (l₁ ++ l₂) acc = resolve_loop anc l₂ acc := by
  intro l₁
  induction l₁ with
  | nil => intro l₂ acc _; rfl
  | cons g t ih =>
    intro l₂ acc h
    rw [List.cons_append, resolve_loop_cons_skip (h g (by simp))]
    exact ih (fun x hx => h x (by simp [hx]))

theorem resolve_loop_insert_skip {anc : List (ResourceType × String × Nat)}
    {g : ResourcePermission} (h : skip_b anc g = true) :
    ∀ (l₁ l₂ : List ResourcePermission) (acc : List String),
    resolve_loop anc (l₁ ++ g :: l₂) acc = resolve_loop anc (l₁ ++ l₂) acc := by
  intro l₁
  induction l₁ with
  | nil => intro l₂ acc; exact resolve_loop_cons_skip h
  | cons a t ih =>
    intro l₂ acc
    by_cases hs : skip_b anc a = true
    · rw [List.cons_append, List.cons_append, resolve_loop_cons_skip hs,
        resolve_loop_cons_skip hs]
      exact ih _ _
    · have hs' : skip_b anc a = false := by simpa using hs
      cases hea : a.effect with
      | DENY =>
        rw [List.cons_append, List.cons_append, resolve_loop_cons_deny hs' hea,
          resolve_loop_cons_deny hs' hea]
      | ALLOW =>
        cases hfa : a.fields with
        | none =>
          rw [List.cons_append, List.cons_append,
            resolve_loop_cons_allow_none hs' hea hfa,
            resolve_loop_cons_allow_none hs' hea hfa]
        | some fs =>
          rw [List.cons_append, List.cons_append,
            resolve_loop_cons_allow_some hs' hea hfa,
            resolve_loop_cons_allow_some hs' hea hfa]
          exact ih _ _

theorem resolve_loop_deny_hit {anc : List (ResourceType × String × Nat)} :
    ∀ {l₁ l₂ : List ResourcePermission} {acc : List String},
    (∀ g ∈ l₁, g.effect = Effect.DENY) →
    (∃ g ∈ l₁, skip_b anc g = false) →
    resolve_loop anc (l₁ ++ l₂) acc = Except.error (false, none) := by
  intro l₁
  induction l₁ with
  | nil => intro l₂ acc _ hex; simp at hex
  | cons g t ih =>
    intro l₂ acc hall hex
    by_cases hs : skip_b anc g = false
    · rw [List.cons_append, resolve_loop_cons_deny hs (hall g (by simp))]
    · have hs' : skip_b anc g = true := by simpa using hs
      rw [List.cons_append, resolve_loop_cons_skip hs']
      obtain ⟨x, hx, hxs⟩ := hex
      rcases List.mem_cons.mp hx with hxg | hxt
      · subst hxg; rw [hs'] at hxs; cases hxs
      · exact ih (fun y hy => hall y (by simp [hy])) ⟨x, hxt, hxs⟩

theorem resolve_loop_allow_none_hit {anc : List (ResourceType × String × Nat)} :
    ∀ {l : List ResourcePermission} {acc : List String},
    (∀ g ∈ l, g.effect = Effect.ALLOW) →
    (∃ g ∈ l, skip_b anc g = false ∧ g.fields = none) →
    resolve_loop anc l acc = Except.error (true, none) := by
  intro l
  induction l with
  | nil => intro acc _ hex; simp at hex
  | cons g t ih =>
    intro acc hall hex
    by_cases hs : skip_b anc g = false
    · cases hf : g.fields with
      | none => exact resolve_loop_cons_allow_none hs (hall g (by simp)) hf
      | some fs =>
        rw [resolve_loop_cons_allow_some hs (hall g (by simp)) hf]
        obtain ⟨x, hx, hxs, hxf⟩ := hex
        rcases List.mem_cons.mp hx with hxg | hxt
        · subst hxg; rw [hf] at hxf; cases hxf
        · exact ih (fun y hy => hall y (by simp [hy])) ⟨x, hxt, hxs, hxf⟩
    · have hs' : skip_b anc g = true := by simpa using hs
      rw [resolve_loop_cons_skip hs']
      obtain ⟨x, hx, hxs, hxf⟩ := hex
      rcases List.mem_cons.mp hx with hxg | hxt
      · subst hxg; rw [hs'] at hxs; cases hxs
      · exact ih (fun y hy => hall y (by simp [hy])) ⟨x, hxt, hxs, hxf⟩

theorem resolve_loop_allow_all_fields {anc : List (ResourceType × String × Nat)} :
    ∀ {l : List ResourcePermission} {acc : List String},
    (∀ g ∈ l, g.effect = Effect.ALLOW) →
    (∀ g ∈ l, skip_b anc g = false → ∃ fs, g.fields = some fs) →
    resolve_loop anc l acc =
      Except.ok (acc ++
        ((l.filter (fun g => !skip_b anc g)).map (fun g => g.fields.getD [])).flatten) := by
  intro l
  induction l with
  | nil => intro acc _ _; simp [resolve_loop]
  | cons g t ih =>
    intro acc hall hfld
    by_cases hs : skip_b anc g = false
    · obtain ⟨fs, hf⟩ := hfld g (by simp) hs
      rw [resolve_loop_cons_allow_some hs (hall g (by simp)) hf]
      rw [ih (fun y hy => hall y (by simp [hy])) (fun y hy hys => hfld y (by simp [hy]) hys)]
      have hg : (!skip_b anc g) = true := by simp [hs]
      simp [List.filter_cons, hg, hf, List.append_assoc]
    · have hs' : skip_b anc g = true := by simpa using hs
      rw [resolve_loop_cons_skip hs']
      rw [ih (fun y hy => hall y (by simp [hy])) (fun y hy hys => hfld y (by simp [hy]) hys)]
      simp [List.filter_cons, hs']

theorem resolve_loop_error_shape {anc : List (ResourceType × String × Nat)} :
    ∀ {l : List ResourcePermission} {acc : List String} {r : Bool × Option (List String)},
    resolve_loop anc l acc = Except.error r → r = (false, none) ∨ r = (true, none) := by
  intro l
  induction l with
  | nil => intro acc r h; simp [resolve_loop] at h
  | cons g t ih =>
    intro acc r h
    by_cases hs : skip_b anc g = false
    · cases he : g.effect with
      | DENY =>
        rw [resolve_loop_cons_deny hs he] at h
        injection h with h'
        exact Or.inl h'.symm
      | ALLOW =>
        cases hf : g.fields with
        | none =>
          rw [resolve_loop_cons_allow_none hs he hf] at h
          injection h with h'
          exact Or.inr h'.symm
        | some fs =>
          rw [resolve_loop_cons_allow_some hs he hf] at h
          exact ih h
    · have hs' : skip_b anc g = true := by simpa using hs
      rw [resolve_loop_cons_skip hs'] at h
      exact ih h

/-! Helper lemmas about the hierarchy walk and the gathering query. -/

theorem hierarchy_parent_types {t pt : ResourceType}
    (h : HIERARCHY_CONFIG t = some (some pt)) :
    pt = ResourceType.ALARM ∨ pt = ResourceType.SENSOR ∨ pt = ResourceType.PLAN
    ∨ pt = ResourceType.SITE := by
  cases t <;> simp_all [HIERARCHY_CONFIG]

theorem ancestors_loop_types {env : Env} :
    ∀ (fuel : Nat) (t : ResourceType) (i : String) (depth : Nat)
      (e : ResourceType × String × Nat), e ∈ ancestors_loop env fuel t i depth →
    e.1 = ResourceType.ALARM ∨ e.1 = ResourceType.SENSOR ∨ e.1 = ResourceType.PLAN
    ∨ e.1 = ResourceType.SITE := by
  intro fuel
  induction fuel with
  | zero => intro t i d e he; simp [ancestors_loop] at he
  | succ n ih =>
    intro t i d e he
    unfold ancestors_loop at he
    split at he
    · simp at he
    · simp at he
    · rename_i pt hcfg
      split at he
      · simp at he
      · rename_i pid hpid
        split at he
        · simp at he
        · simp only [List.mem_cons] at he
          rcases he with he | he
          · subst he; exact hierarchy_parent_types hcfg
          · exact ih _ _ _ _ he

theorem get_ancestors_pos_depth_types {env : Env} {rt : ResourceType} {ri : String}
    {e : ResourceType × String × Nat}
    (he : e ∈ get_ancestors env rt ri) (hd : 0 < e.2.2) :
    e.1 ≠ ResourceType.GROUP := by
  unfold get_ancestors at he
  split at he
  · simp at he
  · simp only [List.mem_singleton] at he
    subst he
    simp at hd
  · simp only [List.mem_cons] at he
    rcases he with he | he
    · subst he; simp at hd
    · rcases ancestors_loop_types _ _ _ _ _ he with h | h | h | h <;> simp [h]

theorem check_query_cons {now : Nat} {g : ResourcePermission}
    {store : List ResourcePermission} {uid : String} {groups : List String}
    {anc : List (ResourceType × String × Nat)} {perms : List Permission} :
    check_query now (g :: store) uid groups anc perms
    = if (grantee_matches uid groups g && resource_matches anc g
          && perms.any (fun p => decide (p = g.permission)) && live_at now g) = true
      then g :: check_query now store uid groups anc perms
      else check_query now store uid groups anc perms := by
  simp [check_query, List.filter_cons]

theorem order_deny_first_cons_deny {g : ResourcePermission}
    {l : List ResourcePermission} (h : g.effect = Effect.DENY) :
    order_deny_first (g :: l) = g :: order_deny_first l := by
  simp [order_deny_first, List.filter_cons, h]

theorem order_deny_first_cons_allow {g : ResourcePermission}
    {l : List ResourcePermission} (h : g.effect = Effect.ALLOW) :
    order_deny_first (g :: l)
    = l.filter (fun x => decide (x.effect = Effect.DENY))
      ++ g :: l.filter (fun x => decide (x.effect = Effect.ALLOW)) := by
  simp [order_deny_first, List.filter_cons, h]

theorem mem_order_deny_first {g : ResourcePermission} {l : List ResourcePermission} :
    g ∈ order_deny_first l ↔ g ∈ l := by
  unfold order_deny_first
  constructor
  · intro h
    rcases List.mem_append.mp h with h | h
    · exact (List.mem_filter.mp h).1
    · exact (List.mem_filter.mp h).1
  · intro h
    cases he : g.effect with
    | DENY => exact List.mem_append.mpr (Or.inl (List.mem_filter.mpr ⟨h, by simp [he]⟩))
    | ALLOW => exact List.mem_append.mpr (Or.inr (List.mem_filter.mpr ⟨h, by simp [he]⟩))

/-! The claim theorems. -/

/-- Claim C3, counterexample: for the catalog kind hardware the ancestor walk
returns the empty list, not the one-element list the claim states, because the
catalog kinds are not keys of HIERARCHY_CONFIG. -/
theorem c3_counterexample :
    get_ancestors env0 ResourceType.HARDWARE "h1"
      ≠ [(ResourceType.HARDWARE, "h1", 0)] := by
  decide

/-- Claim C3 (amended): for user, group and dashboard the ancestor walk
returns exactly the one-element list with the input at depth 0; for the six
catalog kinds, absent from HIERARCHY_CONFIG, it returns the empty list. -/
theorem c3_amended_theorem : ∀ (env : Env) (i : String),
    get_ancestors env ResourceType.USER i = [(ResourceType.USER, i, 0)]
    ∧ get_ancestors env ResourceType.GROUP i = [(ResourceType.GROUP, i, 0)]
    ∧ get_ancestors env ResourceType.DASHBOARD i = [(ResourceType.DASHBOARD, i, 0)]
    ∧ get_ancestors env ResourceType.HARDWARE i = []
    ∧ get_ancestors env ResourceType.DATATYPE i = []
    ∧ get_ancestors env ResourceType.PROTOCOL i = []
    ∧ get_ancestors env ResourceType.PARSER i = []
    ∧ get_ancestors env ResourceType.MANUFACTURER i = []
    ∧ get_ancestors env ResourceType.COMMUNICATION_MODE i = [] := by
  intro env i
  exact ⟨rfl, rfl, rfl, rfl, rfl, rfl, rfl, rfl, rfl⟩

/-- Claim C8: a grant is eligible for a request exactly when its permission is
the request or implies it in the strength lattice; member is matched exactly
and is disjoint from the lattice. -/
theorem c8_theorem :
    (∀ gp : Permission, gp ∈ expand_permission Permission.READ
      ↔ (gp = Permission.READ ∨ gp = Permission.WRITE ∨ gp = Permission.DELETE
          ∨ gp = Permission.CREATE ∨ gp = Permission.MANAGE))
    ∧ (∀ gp : Permission, gp ∈ expand_permission Permission.WRITE
      ↔ (gp = Permission.WRITE ∨ gp = Permission.MANAGE))
    ∧ (∀ gp : Permission, gp ∈ expand_permission Permission.DELETE
      ↔ (gp = Permission.DELETE ∨ gp = Permission.MANAGE))
    ∧ (∀ gp : Permission, gp ∈ expand_permission Permission.CREATE
      ↔ (gp = Permission.CREATE ∨ gp = Permission.MANAGE))
    ∧ (∀ gp : Permission, gp ∈ expand_permission Permission.MANAGE
      ↔ gp = Permission.MANAGE)
    ∧ (∀ gp : Permission, gp ∈ expand_permission Permission.MEMBER
      ↔ gp = Permission.MEMBER)
    ∧ (∀ req : Permission, Permission.MEMBER ∈ expand_permission req
      ↔ req = Permission.MEMBER) := by
  refine ⟨?_, ?_, ?_, ?_, ?_, ?_, ?_⟩ <;> intro x <;> cases x <;> decide

/-- Claim C10: every decision is (false, null), (true, null), or (true, F)
with F a non-empty duplicate-free field list. -/
theorem c10_theorem : ∀ (env : Env) (now : Nat) (store : List ResourcePermission)
    (u : User) (rt : ResourceType) (ri : String) (p : Permission),
    PermissionService.check env now store u rt ri p = (false, none)
    ∨ PermissionService.check env now store u rt ri p = (true, none)
    ∨ ∃ F, PermissionService.check env now store u rt ri p = (true, some F)
        ∧ F ≠ [] ∧ F.Nodup := by
  intro env now store u rt ri p
  unfold PermissionService.check
  by_cases ha : u.is_admin
  · right; left; simp [ha]
  · rw [if_neg (by simp [ha])]
    cases hr : resolve_loop (get_ancestors env rt ri)
        (order_deny_first (check_query now store u.id (get_user_groups now store u.id)
          (get_ancestors env rt ri) (expand_permission p))) [] with
    | error r =>
      rcases resolve_loop_error_shape hr with h | h
      · left; simp [h]
      · right; left; simp [h]
    | ok acc =>
      by_cases he : acc.isEmpty
      · simp only [he, if_true]
        unfold default_decision
        cases hd : RESOURCE_DEFAULTS rt p with
        | none => left; rfl
        | some pol =>
          cases pol with
          | any_user => right; left; rfl
          | admin_only => left; rfl
      · right; right
        have hne : acc ≠ [] := by simpa [List.isEmpty_iff] using he
        refine ⟨acc.dedup, by simp [he], ?_, List.nodup_dedup acc⟩
        intro hnil
        exact hne ((List.dedup_eq_nil acc).mp hnil)

/-- Claim C1, evaluation at the failing input: for a caller with no grants the
manage check on site s1 is (false, null), yet POST /permissions proceeds and
persists the grant, and the per-resource listing returns instead of raising
Forbidden - the endpoints test the truthiness of the (allowed, fields) tuple,
which is never falsy. -/
theorem c1_code_eval :
    PermissionService.check envW 0 [] eve ResourceType.SITE "s1" Permission.MANAGE
      = (false, none)
    ∧ Api.grant_permission envW 0 [] eve req_plain "id1"
      = Except.ok ([g_posted_eve], g_posted_eve)
    ∧ Api.list_resource_permissions envW 0 [] eve ResourceType.SITE "s1"
      = Except.ok [] := by
  refine ⟨by decide, rfl, rfl⟩

/-- Claim C2, evaluation at the failing input: the grant request carries a
field list and an expiry, but the persisted row carries neither - the endpoint
does not forward `fields` and `expires_at` to the service, whose defaults of
None are stored. -/
theorem c2_code_eval :
    req_with_fields.fields = some ["name"]
    ∧ req_with_fields.expires_at = some 50
    ∧ Api.grant_permission envW 0 [] rootAdmin req_with_fields "id2"
      = Except.ok ([g_posted_root], g_posted_root)
    ∧ g_posted_root.fields = none
    ∧ g_posted_root.expires_at = none := by
  refine ⟨rfl, rfl, rfl, rfl, rfl⟩

/-- Claim C4, counterexample: for an admin caller a deny grant that is
applicable in the claim's sense does not make the decision (false, null);
the superuser bypass returns (true, null) before any grant is consulted. -/
theorem c4_counterexample :
    rootAdmin.is_admin = true
    ∧ applicable envW 0 [g_deny] rootAdmin ResourceType.SITE "s1" Permission.READ g_deny
    ∧ g_deny.effect = Effect.DENY
    ∧ PermissionService.check envW 0 [g_deny] rootAdmin ResourceType.SITE "s1"
        Permission.READ = (true, none) := by
  refine ⟨rfl, ?_, rfl, rfl⟩
  unfold applicable
  decide

/-- Claim C5, counterexample: a grant expired at instant 50 still appears in
both listings at instant 100 - neither per-resource nor per-user listing
filters by expires_at. -/
theorem c5_counterexample :
    live_at 100 g_expired = false
    ∧ g_expired ∈ PermissionService.list_for_resource ResourceType.SITE "s1" [g_expired]
    ∧ g_expired ∈ PermissionService.list_for_user "u1" [g_expired] := by
  refine ⟨rfl, by decide, by decide⟩

/-- Claim C6, counterexample: with a live grant of the same (grantee,
resource, permission) triple already in the store, POST /permissions succeeds
and persists a second row instead of failing with Conflict. -/
theorem c6_counterexample :
    live_at 0 g_dup = true
    ∧ Api.grant_permission envW 0 [g_dup] rootAdmin req_plain "id3"
      = Except.ok ([g_dup, g_posted_dup], g_posted_dup)
    ∧ g_posted_dup.grantee_type = g_dup.grantee_type
    ∧ g_posted_dup.grantee_id = g_dup.grantee_id
    ∧ g_posted_dup.resource_type = g_dup.resource_type
    ∧ g_posted_dup.resource_id = g_dup.resource_id
    ∧ g_posted_dup.permission = g_dup.permission := by
  refine ⟨rfl, rfl, rfl, rfl, rfl, rfl, rfl⟩

/-- Claim C9, counterexample: a store whose only applicable grant is an allow
with an empty field list yields (false, null), not (true, union) - the empty
accumulated union falls through to the default deny. -/
theorem c9_counterexample :
    applicable envW 0 [g_empty_fields] eve ResourceType.SITE "s1" Permission.READ
      g_empty_fields
    ∧ g_empty_fields.effect = Effect.ALLOW
    ∧ g_empty_fields.fields = some []
    ∧ (∀ g ∈ ([g_empty_fields] : List ResourcePermission), g.effect = Effect.ALLOW)
    ∧ PermissionService.check envW 0 [g_empty_fields] eve ResourceType.SITE "s1"
        Permission.READ = (false, none) := by
  refine ⟨?_, rfl, rfl, by decide, by decide⟩
  unfold applicable
  decide

/-- Claim C4 (amended): for every non-admin user, if any applicable grant has
effect deny, check returns (false, null), regardless of how many allows exist,
of the deny's depth, fields, or grantee kind. -/
theorem c4_amended_theorem : ∀ (env : Env) (now : Nat) (store : List ResourcePermission)
    (u : User) (rt : ResourceType) (ri : String) (p : Permission),
    u.is_admin = false →
    (∃ g, applicable env now store u rt ri p g ∧ g.effect = Effect.DENY) →
    PermissionService.check env now store u rt ri p = (false, none) := by
  intro env now store u rt ri p ha hex
  obtain ⟨g, ⟨hq, hskip⟩, he⟩ := hex
  unfold PermissionService.check
  rw [if_neg (by simp [ha])]
  unfold order_deny_first
  rw [resolve_loop_deny_hit
    (fun y hy => by simpa using (List.mem_filter.mp hy).2)
    ⟨g, List.mem_filter.mpr ⟨hq, by simp [he]⟩, hskip⟩]

/-- Claim C4, witness: a non-admin user with a direct live deny on site s1 is
denied read on it. -/
theorem c4_witness :
    (eve.is_admin = false
      ∧ (∃ g, applicable envW 0 [g_deny_eve] eve ResourceType.SITE "s1" Permission.READ g
          ∧ g.effect = Effect.DENY))
    ∧ PermissionService.check envW 0 [g_deny_eve] eve ResourceType.SITE "s1"
        Permission.READ = (false, none) :=
  ⟨⟨rfl, ⟨g_deny_eve, by unfold applicable; decide, rfl⟩⟩,
   c4_amended_theorem envW 0 [g_deny_eve] eve ResourceType.SITE "s1" Permission.READ rfl
     ⟨g_deny_eve, by unfold applicable; decide, rfl⟩⟩

/-- Claim C5 (amended): a grant whose expires_at is at or before the current
instant contributes to no check decision, but it does appear in the
per-resource listing and (for a user grantee) in the per-user listing while
its row still exists in the store. -/
theorem c5_amended_theorem : ∀ (env : Env) (now : Nat) (store : List ResourcePermission)
    (u : User) (rt : ResourceType) (ri : String) (p : Permission)
    (g : ResourcePermission) (t : Nat),
    g.expires_at = some t → t ≤ now →
    PermissionService.check env now (g :: store) u rt ri p
      = PermissionService.check env now store u rt ri p
    ∧ g ∈ PermissionService.list_for_resource g.resource_type g.resource_id (g :: store)
    ∧ (g.grantee_type = GranteeType.USER →
        g ∈ PermissionService.list_for_user g.grantee_id (g :: store)) := by
  intro env now store u rt ri p g t hexp hle
  have hlive : live_at now g = false := by
    unfold live_at
    rw [hexp]
    simp
    omega
  refine ⟨?_, ?_, ?_⟩
  · have hgroups : get_user_groups now (g :: store) u.id
        = get_user_groups now store u.id := by
      unfold get_user_groups
      rw [List.filter_cons]
      simp [hlive]
    have hquery : ∀ groups anc perms,
        check_query now (g :: store) u.id groups anc perms
        = check_query now store u.id groups anc perms := by
      intro groups anc perms
      rw [check_query_cons]
      simp [hlive]
    unfold PermissionService.check
    rw [hgroups, hquery]
  · exact List.mem_filter.mpr ⟨by simp, by simp⟩
  · intro hu
    exact List.mem_filter.mpr ⟨by simp, by simp [hu]⟩

/-- Claim C5, witness: the grant expired at instant 50 changes no decision at
instant 100 and is still returned by both listings. -/
theorem c5_witness :
    (g_expired.expires_at = some 50 ∧ 50 ≤ 100)
    ∧ (PermissionService.check envW 100 [g_expired] eve ResourceType.SITE "s1"
          Permission.READ
        = PermissionService.check envW 100 [] eve ResourceType.SITE "s1" Permission.READ
      ∧ g_expired ∈ PermissionService.list_for_resource g_expired.resource_type
          g_expired.resource_id [g_expired]
      ∧ (g_expired.grantee_type = GranteeType.USER →
          g_expired ∈ PermissionService.list_for_user g_expired.grantee_id [g_expired])) :=
  ⟨⟨rfl, by omega⟩,
   c5_amended_theorem envW 100 [] eve ResourceType.SITE "s1" Permission.READ g_expired 50
     rfl (by omega)⟩

/-- Claim C6 (amended): adding a group member fails with Conflict whenever a
membership row for the pair already exists (live or expired), and the store is
left unchanged; the general grant-issue endpoint performs no uniqueness check
and never returns Conflict. -/
theorem c6_amended_theorem :
    (∀ (env : Env) (store : List ResourcePermission) (cu : User) (gid uid nid : String),
      env.group_exists gid = true → env.user_exists uid = true →
      store.any (fun g =>
        decide (g.grantee_type = GranteeType.USER) && decide (g.grantee_id = uid)
        && decide (g.resource_type = ResourceType.GROUP)
        && decide (g.resource_id = gid)
        && decide (g.permission = Permission.MEMBER)) = true →
      Api.add_group_member env store cu gid uid nid = Except.error ApiError.conflict)
    ∧ (∀ (env : Env) (now : Nat) (store : List ResourcePermission) (cu : User)
        (pc : PermissionCreate) (nid : String),
      Api.grant_permission env now store cu pc nid ≠ Except.error ApiError.conflict) := by
  constructor
  · intro env store cu gid uid nid hg hu hex
    unfold Api.add_group_member
    simp [hg, hu, hex]
  · intro env now store cu pc nid h
    unfold Api.grant_permission at h
    repeat' split at h
    all_goals simp at h

/-- Claim C6, witness: re-adding an existing member of group g1 yields
Conflict, while reissuing the identical site grant never does. -/
theorem c6_witness :
    (envW.group_exists "g1" = true ∧ envW.user_exists "u1" = true
      ∧ ([{ id := "m0", grantee_type := GranteeType.USER, grantee_id := "u1",
            resource_type := ResourceType.GROUP, resource_id := "g1",
            permission := Permission.MEMBER, effect := Effect.ALLOW, inherit := false,
            fields := none, expires_at := none,
            granted_by := none }] : List ResourcePermission).any (fun g =>
        decide (g.grantee_type = GranteeType.USER) && decide (g.grantee_id = "u1")
        && decide (g.resource_type = ResourceType.GROUP)
        && decide (g.resource_id = "g1")
        && decide (g.permission = Permission.MEMBER)) = true)
    ∧ Api.add_group_member envW
        [{ id := "m0", grantee_type := GranteeType.USER, grantee_id := "u1",
           resource_type := ResourceType.GROUP, resource_id := "g1",
           permission := Permission.MEMBER, effect := Effect.ALLOW, inherit := false,
           fields := none, expires_at := none, granted_by := none }]
        rootAdmin "g1" "u1" "m1" = Except.error ApiError.conflict
    ∧ Api.grant_permission envW 0 [g_dup] rootAdmin req_plain "id3"
        ≠ Except.error ApiError.conflict :=
  ⟨⟨by decide, by decide, by decide⟩,
   c6_amended_theorem.1 envW _ rootAdmin "g1" "u1" "m1" (by decide) (by decide)
     (by decide),
   c6_amended_theorem.2 envW 0 [g_dup] rootAdmin req_plain "id3"⟩

/-- Claim C7: a grant with the inheritance bit off sitting on a strict
ancestor of the queried resource never influences the decision - adding it to
any store leaves check unchanged, for both allow and deny effects. -/
theorem c7_theorem : ∀ (env : Env) (now : Nat) (store : List ResourcePermission)
    (u : User) (rt : ResourceType) (ri : String) (p : Permission)
    (g : ResourcePermission) (d : Nat),
    depth_of (get_ancestors env rt ri) g = some d → 0 < d → g.inherit = false →
    PermissionService.check env now (g :: store) u rt ri p
      = PermissionService.check env now store u rt ri p := by
  intro env now store u rt ri p g d hdep hd hinh
  have hng : g.resource_type ≠ ResourceType.GROUP := by
    unfold depth_of at hdep
    obtain ⟨a, hfind, hval⟩ := Option.map_eq_some'.mp hdep
    have hmem : a ∈ get_ancestors env rt ri := List.mem_of_find?_eq_some hfind
    have hpred := List.find?_some hfind
    simp only [Bool.and_eq_true, decide_eq_true_eq] at hpred
    have hag : a.1 ≠ ResourceType.GROUP :=
      get_ancestors_pos_depth_types hmem (by omega)
    rw [hpred.1] at hag
    exact hag
  have hskip : skip_b (get_ancestors env rt ri) g = true := by
    unfold skip_b
    rw [hdep]
    simp [hd, hinh]
  have hgroups : get_user_groups now (g :: store) u.id
      = get_user_groups now store u.id := by
    unfold get_user_groups
    rw [List.filter_cons]
    simp [hng]
  unfold PermissionService.check
  by_cases ha : u.is_admin
  · simp [ha]
  · rw [if_neg ha, if_neg ha, hgroups, check_query_cons]
    by_cases hqg : (grantee_matches u.id (get_user_groups now store u.id) g
        && resource_matches (get_ancestors env rt ri) g
        && (expand_permission p).any (fun q => decide (q = g.permission))
        && live_at now g) = true
    · rw [if_pos hqg]
      cases he : g.effect with
      | DENY =>
        rw [order_deny_first_cons_deny he, resolve_loop_cons_skip hskip]
      | ALLOW =>
        rw [order_deny_first_cons_allow he, resolve_loop_insert_skip hskip]
        unfold order_deny_first
        rfl
    · rw [if_neg hqg]

/-- Claim C7, witness: a deny on plan p1 with inherit off does not change the
decision on sensor se1 below it. -/
theorem c7_witness :
    (depth_of (get_ancestors envW ResourceType.SENSOR "se1") g_noinherit = some 1
      ∧ 0 < 1 ∧ g_noinherit.inherit = false)
    ∧ PermissionService.check envW 0 [g_noinherit] eve ResourceType.SENSOR "se1"
        Permission.READ
      = PermissionService.check envW 0 [] eve ResourceType.SENSOR "se1"
        Permission.READ :=
  ⟨⟨by decide, by decide, rfl⟩,
   c7_theorem envW 0 [] eve ResourceType.SENSOR "se1" Permission.READ g_noinherit 1
     (by decide) (by decide) rfl⟩

/-- Unfolding lemma for applicability. -/
theorem applicable_iff {env : Env} {now : Nat} {store : List ResourcePermission}
    {u : User} {rt : ResourceType} {ri : String} {p : Permission}
    {g : ResourcePermission} :
    applicable env now store u rt ri p g ↔
    (g ∈ check_query now store u.id (get_user_groups now store u.id)
        (get_ancestors env rt ri) (expand_permission p)
      ∧ skip_b (get_ancestors env rt ri) g = false) := Iff.rfl

/-- When every deny row is gated out and every surviving allow row carries a
field list, the loop completes with the concatenation of those lists. -/
theorem check_allow_fields_result {anc : List (ResourceType × String × Nat)}
    {q : List ResourcePermission}
    (hdq : ∀ y ∈ q.filter (fun x => decide (x.effect = Effect.DENY)),
      skip_b anc y = true)
    (hfld : ∀ y ∈ q.filter (fun x => decide (x.effect = Effect.ALLOW)),
      skip_b anc y = false → ∃ fs, y.fields = some fs) :
    resolve_loop anc (q.filter (fun x => decide (x.effect = Effect.DENY))
        ++ q.filter (fun x => decide (x.effect = Effect.ALLOW))) []
    = Except.ok ((((q.filter (fun x => decide (x.effect = Effect.ALLOW))).filter
        (fun g => !skip_b anc g)).map (fun g => g.fields.getD [])).flatten) := by
  rw [resolve_loop_all_skip hdq]
  rw [resolve_loop_allow_all_fields
    (fun y hy => by simpa using (List.mem_filter.mp hy).2) hfld]
  simp

/-- Membership in the accumulated union of field lists. -/
theorem mem_allow_union {anc : List (ResourceType × String × Nat)}
    {q : List ResourcePermission} {x : String}
    (hfld : ∀ y ∈ q.filter (fun x => decide (x.effect = Effect.ALLOW)),
      skip_b anc y = false → ∃ fs, y.fields = some fs) :
    (x ∈ (((q.filter (fun x => decide (x.effect = Effect.ALLOW))).filter
        (fun g => !skip_b anc g)).map (fun g => g.fields.getD [])).flatten)
    ↔ ∃ g fs, (g ∈ q ∧ skip_b anc g = false ∧ g.effect = Effect.ALLOW)
        ∧ g.fields = some fs ∧ x ∈ fs := by
  constructor
  · intro hx
    obtain ⟨l, hl, hxl⟩ := List.mem_flatten.mp hx
    obtain ⟨g1, hg1m, rfl⟩ := List.mem_map.mp hl
    obtain ⟨hg1qa, hg1s⟩ := List.mem_filter.mp hg1m
    obtain ⟨hg1q, hg1a⟩ := List.mem_filter.mp hg1qa
    have hskip : skip_b anc g1 = false := by simpa using hg1s
    obtain ⟨fs1, hfs1⟩ := hfld g1 hg1qa hskip
    refine ⟨g1, fs1, ⟨hg1q, hskip, by simpa using hg1a⟩, hfs1, ?_⟩
    rw [hfs1] at hxl
    simpa using hxl
  · rintro ⟨g1, fs1, ⟨hg1q, hskip, hg1a⟩, hfs1, hx1⟩
    apply List.mem_flatten.mpr
    refine ⟨g1.fields.getD [], List.mem_map.mpr ⟨g1,
      List.mem_filter.mpr ⟨List.mem_filter.mpr ⟨hg1q, by simp [hg1a]⟩,
        by simp [hskip]⟩, rfl⟩, ?_⟩
    rw [hfs1]
    simpa using hx1

/-- The decision when the resolution loop returns early. -/
theorem check_of_resolve_error {env : Env} {now : Nat} {store : List ResourcePermission}
    {u : User} {rt : ResourceType} {ri : String} {p : Permission}
    {r : Bool × Option (List String)}
    (ha : u.is_admin = false)
    (h : resolve_loop (get_ancestors env rt ri)
        (order_deny_first (check_query now store u.id (get_user_groups now store u.id)
          (get_ancestors env rt ri) (expand_permission p))) [] = Except.error r) :
    PermissionService.check env now store u rt ri p = r := by
  unfold PermissionService.check
  rw [if_neg (by simp [ha]), h]

/-- The decision when the resolution loop runs to completion. -/
theorem check_of_resolve_ok {env : Env} {now : Nat} {store : List ResourcePermission}
    {u : User} {rt : ResourceType} {ri : String} {p : Permission} {acc : List String}
    (ha : u.is_admin = false)
    (h : resolve_loop (get_ancestors env rt ri)
        (order_deny_first (check_query now store u.id (get_user_groups now store u.id)
          (get_ancestors env rt ri) (expand_permission p))) [] = Except.ok acc) :
    PermissionService.check env now store u rt ri p
      = if acc.isEmpty = true then default_decision rt p else (true, some acc.dedup) := by
  unfold PermissionService.check
  rw [if_neg (by simp [ha]), h]

/-- Claim C9 (amended): with no applicable deny and at least one applicable
allow, an applicable allow with a null field list makes the decision
(true, null); if instead every applicable allow carries a field list and the
union of those lists is non-empty, the decision is (true, F) with F exactly
that union. (When every applicable allow carries an empty field list the code
falls through to the resource defaults instead.) -/
theorem c9_amended_theorem : ∀ (env : Env) (now : Nat) (store : List ResourcePermission)
    (u : User) (rt : ResourceType) (ri : String) (p : Permission),
    u.is_admin = false →
    (∀ g, applicable env now store u rt ri p g → g.effect = Effect.ALLOW) →
    ((∃ g, applicable env now store u rt ri p g ∧ g.fields = none) →
      PermissionService.check env now store u rt ri p = (true, none))
    ∧ ((∀ g, applicable env now store u rt ri p g → ∃ fs, g.fields = some fs) →
       (∃ g fs x, applicable env now store u rt ri p g ∧ g.fields = some fs ∧ x ∈ fs) →
       ∃ F, PermissionService.check env now store u rt ri p = (true, some F)
         ∧ ∀ x, x ∈ F ↔ ∃ g fs, applicable env now store u rt ri p g
             ∧ g.fields = some fs ∧ x ∈ fs) := by
  intro env now store u rt ri p ha hnd
  have hdq_skip : ∀ y ∈ (check_query now store u.id (get_user_groups now store u.id)
      (get_ancestors env rt ri) (expand_permission p)).filter
        (fun x => decide (x.effect = Effect.DENY)),
      skip_b (get_ancestors env rt ri) y = true := by
    intro y hy
    obtain ⟨hyq, hyd⟩ := List.mem_filter.mp hy
    cases hys : skip_b (get_ancestors env rt ri) y with
    | true => rfl
    | false =>
      have hall := hnd y (applicable_iff.mpr ⟨hyq, hys⟩)
      simp only [decide_eq_true_eq] at hyd
      simp [hall] at hyd
  constructor
  · intro hex
    obtain ⟨g, hg, hf⟩ := hex
    obtain ⟨hgq, hgs⟩ := applicable_iff.mp hg
    have hga : g.effect = Effect.ALLOW := hnd g hg
    apply check_of_resolve_error ha
    unfold order_deny_first
    rw [resolve_loop_all_skip hdq_skip]
    exact resolve_loop_allow_none_hit
      (fun y hy => by simpa using (List.mem_filter.mp hy).2)
      ⟨g, List.mem_filter.mpr ⟨hgq, by simp [hga]⟩, hgs, hf⟩
  · intro hfields hne
    have hfld : ∀ y ∈ (check_query now store u.id (get_user_groups now store u.id)
        (get_ancestors env rt ri) (expand_permission p)).filter
          (fun x => decide (x.effect = Effect.ALLOW)),
        skip_b (get_ancestors env rt ri) y = false → ∃ fs, y.fields = some fs := by
      intro y hy hys
      exact hfields y (applicable_iff.mpr ⟨(List.mem_filter.mp hy).1, hys⟩)
    have hcheck := check_of_resolve_ok ha
      (by unfold order_deny_first; exact check_allow_fields_result hdq_skip hfld)
    obtain ⟨g0, fs0, x0, hg0, hfs0, hx0⟩ := hne
    obtain ⟨hg0q, hg0s⟩ := applicable_iff.mp hg0
    have hg0a : g0.effect = Effect.ALLOW := hnd g0 hg0
    have hxJ := (mem_allow_union hfld).mpr ⟨g0, fs0, ⟨hg0q, hg0s, hg0a⟩, hfs0, hx0⟩
    have hJne := List.ne_nil_of_mem hxJ
    have hJemp : (((((check_query now store u.id (get_user_groups now store u.id)
        (get_ancestors env rt ri) (expand_permission p)).filter
          (fun x => decide (x.effect = Effect.ALLOW))).filter
        (fun g => !skip_b (get_ancestors env rt ri) g)).map
          (fun g => g.fields.getD [])).flatten).isEmpty = false := by
      cases hJ : (((((check_query now store u.id (get_user_groups now store u.id)
          (get_ancestors env rt ri) (expand_permission p)).filter
            (fun x => decide (x.effect = Effect.ALLOW))).filter
          (fun g => !skip_b (get_ancestors env rt ri) g)).map
            (fun g => g.fields.getD [])).flatten).isEmpty with
      | false => rfl
      | true => exact absurd (List.isEmpty_iff.mp hJ) hJne
    refine ⟨(((((check_query now store u.id (get_user_groups now store u.id)
        (get_ancestors env rt ri) (expand_permission p)).filter
          (fun x => decide (x.effect = Effect.ALLOW))).filter
        (fun g => !skip_b (get_ancestors env rt ri) g)).map
          (fun g => g.fields.getD [])).flatten).dedup, ?_, ?_⟩
    · rw [hcheck, hJemp]
      rfl
    · intro x
      rw [List.mem_dedup, mem_allow_union hfld]
      constructor
      · rintro ⟨g1, fs1, ⟨hq1, hs1, _⟩, hfs1, hx1⟩
        exact ⟨g1, fs1, applicable_iff.mpr ⟨hq1, hs1⟩, hfs1, hx1⟩
      · rintro ⟨g1, fs1, happ1, hfs1, hx1⟩
        obtain ⟨hq1, hs1⟩ := applicable_iff.mp happ1
        exact ⟨g1, fs1, ⟨hq1, hs1, hnd g1 happ1⟩, hfs1, hx1⟩

/-- Claim C9, witness: an unrestricted applicable allow gives (true, null);
a field-restricted store gives (true, F) with F the union of the field lists. -/
theorem c9_witness :
    (eve.is_admin = false
      ∧ (∃ g, applicable envW 0 [g_allow_eve] eve ResourceType.SITE "s1"
            Permission.READ g ∧ g.fields = none))
    ∧ PermissionService.check envW 0 [g_allow_eve] eve ResourceType.SITE "s1"
        Permission.READ = (true, none)
    ∧ (∃ g fs x, applicable envW 0 [g_fields_ab] eve ResourceType.SITE "s1"
          Permission.READ g ∧ g.fields = some fs ∧ x ∈ fs)
    ∧ ∃ F, PermissionService.check envW 0 [g_fields_ab] eve ResourceType.SITE "s1"
          Permission.READ = (true, some F)
        ∧ ∀ x, x ∈ F ↔ ∃ g fs, applicable envW 0 [g_fields_ab] eve ResourceType.SITE
            "s1" Permission.READ g ∧ g.fields = some fs ∧ x ∈ fs := by
  have happ1 : applicable envW 0 [g_allow_eve] eve ResourceType.SITE "s1"
      Permission.READ g_allow_eve := by
    unfold applicable
    decide
  have happ2 : applicable envW 0 [g_fields_ab] eve ResourceType.SITE "s1"
      Permission.READ g_fields_ab := by
    unfold applicable
    decide
  have hq1 : check_query 0 [g_allow_eve] eve.id (get_user_groups 0 [g_allow_eve] eve.id)
      (get_ancestors envW ResourceType.SITE "s1") (expand_permission Permission.READ)
      = [g_allow_eve] := by decide
  have hq2 : check_query 0 [g_fields_ab] eve.id (get_user_groups 0 [g_fields_ab] eve.id)
      (get_ancestors envW ResourceType.SITE "s1") (expand_permission Permission.READ)
      = [g_fields_ab] := by decide
  have hnd1 : ∀ g, applicable envW 0 [g_allow_eve] eve ResourceType.SITE "s1"
      Permission.READ g → g.effect = Effect.ALLOW := by
    intro g hg
    have hm := (applicable_iff.mp hg).1
    rw [hq1] at hm
    rcases List.mem_singleton.mp hm with rfl
    rfl
  have hnd2 : ∀ g, applicable envW 0 [g_fields_ab] eve ResourceType.SITE "s1"
      Permission.READ g → g.effect = Effect.ALLOW := by
    intro g hg
    have hm := (applicable_iff.mp hg).1
    rw [hq2] at hm
    rcases List.mem_singleton.mp hm with rfl
    rfl
  have hfields2 : ∀ g, applicable envW 0 [g_fields_ab] eve ResourceType.SITE "s1"
      Permission.READ g → ∃ fs, g.fields = some fs := by
    intro g hg
    have hm := (applicable_iff.mp hg).1
    rw [hq2] at hm
    rcases List.mem_singleton.mp hm with rfl
    exact ⟨["a", "b"], rfl⟩
  refine ⟨⟨rfl, g_allow_eve, happ1, rfl⟩, ?_,
    ⟨g_fields_ab, ["a", "b"], "a", happ2, rfl, by decide⟩, ?_⟩
  · exact (c9_amended_theorem envW 0 [g_allow_eve] eve ResourceType.SITE "s1"
      Permission.READ rfl hnd1).1 ⟨g_allow_eve, happ1, rfl⟩
  · exact (c9_amended_theorem envW 0 [g_fields_ab] eve ResourceType.SITE "s1"
      Permission.READ rfl hnd2).2 hfields2
      ⟨g_fields_ab, ["a", "b"], "a", happ2, rfl, by decide⟩
